import Mathlib

/-!
Shallow embedding of the bulk-transfer engine of `server.go`
(package `goserver`, module `github.com/network-quality/goserver`).

Modelling conventions:
* Go `uint64` counters are `Nat` values reduced modulo `2 ^ 64` at every
  `atomic.AddUint64`, mirroring Go's wrapping unsigned arithmetic.
* A Go `*uint64` counter pointer is an `Option Nat`: `none` is a nil
  pointer (dereferencing it is a nil-pointer fault, modelled by the
  surrounding function returning `none`), `some c` is a pointer to a
  counter currently holding `c`.
* A Go `error` value is `Option GoError`: `none` is the nil error.
  `errors.Is(err, syscall.EPIPE)` / `errors.Is(err, syscall.ECONNRESET)`
  are abstracted as boolean attributes of the error, and `err.Error()`
  (also what `%s` formatting produces) as its `msg` field.
* The network transport behind an `http.ResponseWriter` is an oracle
  `wErr : Nat → Option GoError` giving the outcome of the i-th
  `w.Write` call of a handler run.
* Prometheus metric calls (`pC`/`pH`) and timing code are side-effect
  sinks with no bearing on any claim and are omitted.
-/

namespace Goserver

/-- `chunkSize` from server.go: `chunkSize int64 = 64 * 1024`. -/
def chunkSize : Nat := 64 * 1024

/-- `smallContentLength int64 = 1`. -/
def smallContentLength : Nat := 1

/-- `largeContentLength int64 = 8 * 1024 * 1024 * 1024`. -/
def largeContentLength : Nat := 8 * 1024 * 1024 * 1024

/-- The global payload buffer built by `init()`: `chunkSize` bytes all
equal to `'x'` (byte value 120). -/
def buffed : List Nat := List.replicate chunkSize 120

/-- Model of a non-nil Go `error` value as observed by `ignorableError`:
whether `errors.Is` matches `syscall.EPIPE`, whether it matches
`syscall.ECONNRESET`, and the string returned by `Error()`. -/
structure GoError where
  isEPIPE : Bool
  isECONNRESET : Bool
  msg : String
  deriving DecidableEq

/-- `ignorableError` from server.go: nil errors, broken pipe,
connection reset, and the http2 "client disconnected" error text are
ignorable; every other error is not. -/
def ignorableError : Option GoError → Bool
  | none => true
  | some e => e.isEPIPE || e.isECONNRESET || e.msg == "client disconnected"

/-- `atomic.AddUint64(p, k)`: `none` when the pointer is nil (nil-pointer
fault), otherwise the wrapped updated counter value. -/
def atomicAddUint64 (p : Option Nat) (k : Nat) : Option Nat :=
  p.map (fun c => (c + k) % 2 ^ 64)

/-- `chunkedBodyWriter` from server.go, as a function of the write
oracle `wErr`, the index `i` of the next write call, the `BytesServed`
counter pointer, and the remaining length `n`.

Result `none` models a nil-pointer fault in `atomic.AddUint64`;
`some (ws, s, e)` models normal return with `ws` the payloads of the
`w.Write` calls performed (in order), `s` the final counter pointer
state, and `e` the returned error (`none` = the function returned nil).
The loop body mirrors the source: while `n > 0`, if `n ≥ chunkSize`
subtract `chunkSize`, add `chunkSize` to the counter, write `buffed`
(returning the error on failure); otherwise add `n` to the counter,
write `buffed[:n]` and break. -/
def chunkedBodyWriter (wErr : Nat → Option GoError) (i : Nat)
    (served : Option Nat) (n : Nat) :
    Option (List (List Nat) × Option Nat × Option GoError) :=
  if n = 0 then
    some ([], served, none)
  else if chunkSize ≤ n then
    match served with
    | none => none
    | some c =>
      let s' : Option Nat := some ((c + chunkSize) % 2 ^ 64)
      match wErr i with
      | some e => some ([buffed], s', some e)
      | none =>
        (chunkedBodyWriter wErr (i + 1) s' (n - chunkSize)).map
          (fun r => (buffed :: r.1, r.2))
  else
    match served with
    | none => none
    | some c => some ([buffed.take n], some ((c + n) % 2 ^ 64), wErr i)
  termination_by n
  decreasing_by
    have hpos : 0 < chunkSize := by decide
    omega

/-! ### Basic facts about the payload buffer and the chunked writer -/

theorem buffed_length : buffed.length = chunkSize := by
  simp [buffed]

/-- Unfolding of `chunkedBodyWriter` for a full-chunk iteration whose
write succeeds. -/
theorem cbw_step_chunk (wErr : Nat → Option GoError) (i c n : Nat)
    (h0 : ¬ n = 0) (hcs : chunkSize ≤ n) (hw : wErr i = none) :
    chunkedBodyWriter wErr i (some c) n =
      (chunkedBodyWriter wErr (i + 1) (some ((c + chunkSize) % 2 ^ 64)) (n - chunkSize)).map
        (fun r => (buffed :: r.1, r.2)) := by
  rw [chunkedBodyWriter]
  rw [if_neg h0, if_pos hcs, hw]

/-- Unfolding of `chunkedBodyWriter` for a full-chunk iteration whose
write fails. -/
theorem cbw_step_chunk_err (wErr : Nat → Option GoError) (i c n : Nat)
    (h0 : ¬ n = 0) (hcs : chunkSize ≤ n) (e : GoError) (hw : wErr i = some e) :
    chunkedBodyWriter wErr i (some c) n =
      some ([buffed], some ((c + chunkSize) % 2 ^ 64), some e) := by
  rw [chunkedBodyWriter]
  rw [if_neg h0, if_pos hcs, hw]

/-- Unfolding of `chunkedBodyWriter` for the final remainder write. -/
theorem cbw_step_rem (wErr : Nat → Option GoError) (i c n : Nat)
    (h0 : ¬ n = 0) (hcs : ¬ chunkSize ≤ n) :
    chunkedBodyWriter wErr i (some c) n =
      some ([buffed.take n], some ((c + n) % 2 ^ 64), wErr i) := by
  rw [chunkedBodyWriter]
  rw [if_neg h0, if_neg hcs]

/-- A fully successful run of the chunked writer: the write calls are
exactly `n / chunkSize` copies of the full buffer followed by one
remainder write iff `n % chunkSize ≠ 0`, the counter advances by `n`
(in wrapping 64-bit arithmetic), and the writer returns nil. -/
theorem cbw_success (wErr : Nat → Option GoError) (h : ∀ j, wErr j = none) :
    ∀ n i c, c < 2 ^ 64 →
      chunkedBodyWriter wErr i (some c) n =
        some (List.replicate (n / chunkSize) buffed ++
            (if n % chunkSize = 0 then [] else [buffed.take (n % chunkSize)]),
          some ((c + n) % 2 ^ 64), none) := by
  intro n
  induction n using Nat.strong_induction_on with
  | _ n ih =>
    intro i c hc
    by_cases h0 : n = 0
    · subst h0
      rw [chunkedBodyWriter]
      simp
      omega
    · by_cases hcs : chunkSize ≤ n
      · have hpos : 0 < chunkSize := by decide
        have hlt : n - chunkSize < n := by omega
        have hmod : (c + chunkSize) % 2 ^ 64 < 2 ^ 64 := Nat.mod_lt _ (by norm_num)
        rw [cbw_step_chunk wErr i c n h0 hcs (h i)]
        rw [ih (n - chunkSize) hlt (i + 1) ((c + chunkSize) % 2 ^ 64) hmod]
        rw [Nat.div_eq_sub_div hpos hcs, Nat.mod_eq_sub_mod hcs]
        rw [List.replicate_succ]
        rw [Option.map_some']
        rw [List.cons_append]
        rw [Nat.mod_add_mod]
        have heq : c + chunkSize + (n - chunkSize) = c + n := by omega
        rw [heq]
      · have hn : n < chunkSize := by omega
        rw [cbw_step_rem wErr i c n h0 hcs, h i]
        rw [Nat.div_eq_of_lt hn, Nat.mod_eq_of_lt hn]
        simp [h0]

/-- The counter delta of any run (successful or ending in a failed
write): the final counter state is the initial counter plus the total
number of payload bytes of the write calls that were performed, in
wrapping 64-bit arithmetic. -/
theorem cbw_counter :
    ∀ n (wErr : Nat → Option GoError) i c, c < 2 ^ 64 →
      ∀ ws s e, chunkedBodyWriter wErr i (some c) n = some (ws, s, e) →
        s = some ((c + (ws.map List.length).sum) % 2 ^ 64) := by
  intro n
  induction n using Nat.strong_induction_on with
  | _ n ih =>
    intro wErr i c hc ws s e hrun
    by_cases h0 : n = 0
    · subst h0
      rw [chunkedBodyWriter] at hrun
      simp at hrun
      obtain ⟨hws, hs, he⟩ := hrun
      subst hws
      rw [← hs]
      simp
      omega
    · by_cases hcs : chunkSize ≤ n
      · cases hw : wErr i with
        | some e0 =>
          rw [cbw_step_chunk_err wErr i c n h0 hcs e0 hw] at hrun
          simp only [Option.some.injEq, Prod.mk.injEq] at hrun
          obtain ⟨hws, hs, he⟩ := hrun
          subst hws
          rw [← hs]
          simp [buffed_length]
        | none =>
          rw [cbw_step_chunk wErr i c n h0 hcs hw] at hrun
          rw [Option.map_eq_some'] at hrun
          obtain ⟨r, hr, hfr⟩ := hrun
          obtain ⟨ws', s', e'⟩ := r
          simp only [Prod.mk.injEq] at hfr
          obtain ⟨hws, hs, he⟩ := hfr
          have hpos : 0 < chunkSize := by decide
          have hlt : n - chunkSize < n := by omega
          have hmod : (c + chunkSize) % 2 ^ 64 < 2 ^ 64 := Nat.mod_lt _ (by norm_num)
          have hihs := ih (n - chunkSize) hlt wErr (i + 1) ((c + chunkSize) % 2 ^ 64) hmod ws' s' e' hr
          rw [← hws, ← hs]
          rw [hihs]
          simp only [List.map_cons, List.sum_cons, buffed_length]
          rw [Nat.mod_add_mod, Nat.add_assoc]
      · rw [cbw_step_rem wErr i c n h0 hcs] at hrun
        simp only [Option.some.injEq, Prod.mk.injEq] at hrun
        obtain ⟨hws, hs, he⟩ := hrun
        subst hws
        rw [← hs]
        have hn : n < chunkSize := by omega
        simp [List.length_take, buffed_length, Nat.min_eq_left (Nat.le_of_lt hn)]

/-- With a non-nil counter pointer the chunked writer never faults. -/
theorem cbw_ne_none :
    ∀ n (wErr : Nat → Option GoError) i c,
      chunkedBodyWriter wErr i (some c) n ≠ none := by
  intro n
  induction n using Nat.strong_induction_on with
  | _ n ih =>
    intro wErr i c
    by_cases h0 : n = 0
    · subst h0
      rw [chunkedBodyWriter]
      simp
    · by_cases hcs : chunkSize ≤ n
      · cases hw : wErr i with
        | some e0 =>
          rw [cbw_step_chunk_err wErr i c n h0 hcs e0 hw]
          simp
        | none =>
          rw [cbw_step_chunk wErr i c n h0 hcs hw]
          have hpos : 0 < chunkSize := by decide
          have hlt : n - chunkSize < n := by omega
          simp only [ne_eq, Option.map_eq_none']
          exact ih (n - chunkSize) hlt wErr (i + 1) _
      · rw [cbw_step_rem wErr i c n h0 hcs]
        simp

/-- With a nil counter pointer and a positive length, the first loop
iteration dereferences the nil pointer: a fault. -/
theorem cbw_nil_fault (wErr : Nat → Option GoError) (i n : Nat) (hn : 0 < n) :
    chunkedBodyWriter wErr i none n = none := by
  rw [chunkedBodyWriter]
  rw [if_neg (by omega : ¬ n = 0)]
  by_cases hcs : chunkSize ≤ n
  · rw [if_pos hcs]
  · rw [if_neg hcs]

/-! ### Handlers, discard sink, discovery document -/

/-- The `handlers` struct from server.go.  The two counter pointers are
`Option Nat`: `none` models a nil `*uint64`. -/
structure handlers where
  EnableCORS : Bool
  BytesServed : Option Nat
  BytesReceived : Option Nat
  deriving DecidableEq

/-- The two headers set by `setCors`. -/
def corsHeaders : List (String × String) :=
  [("Access-Control-Allow-Origin", "*"), ("Access-Control-Allow-Headers", "*")]

/-- `BulkHandlers` from server.go: builds a `handlers` value with the
zero value (nil) for both counter pointers, registered at the three
suffixed paths.  Modelled as the shared `handlers` record plus the
ordered list of registered paths. -/
def BulkHandlers (pfx : String) (EnableCORS : Bool) :
    handlers × List String :=
  ({ EnableCORS := EnableCORS, BytesServed := none, BytesReceived := none },
   [pfx ++ "/small", pfx ++ "/large", pfx ++ "/slurp"])

/-- `CountingBulkHandlers` from server.go: same, but the two counter
pointers are the caller's. -/
def CountingBulkHandlers (pfx : String) (EnableCORS : Bool)
    (bytesServed bytesReceived : Option Nat) : handlers × List String :=
  ({ EnableCORS := EnableCORS, BytesServed := bytesServed,
     BytesReceived := bytesReceived },
   [pfx ++ "/small", pfx ++ "/large", pfx ++ "/slurp"])

/-- Observable outcome of one download-handler invocation: response
status (200 is implicit when the handler finishes without calling
`WriteHeader`), headers set, payloads of the body `Write` calls, final
state of the two counters, and the error-log lines emitted.
`none` at the outer level models a nil-pointer fault. -/
structure DownloadResult where
  status : Nat
  headers : List (String × String)
  bodyWrites : List (List Nat)
  served : Option Nat
  received : Option Nat
  logs : List String
  deriving DecidableEq

/-- Headers set by `smallHandler`/`largeHandler` before writing:
Content-Length, Content-Type, and the CORS pair when enabled. -/
def dlHeaders (contentLength : Nat) (cors : Bool) : List (String × String) :=
  [("Content-Length", toString contentLength),
   ("Content-Type", "application/octet-stream")] ++
  (if cors then corsHeaders else [])

/-- `%s` formatting of the error in the handlers' log call:
`err.Error()` for a non-nil error. -/
def errMsg : Option GoError → String
  | none => "%!s(<nil>)"
  | some e => e.msg

/-- The log line `log.Printf("Error writing content of length %d: %s", ...)`
emitted by `smallHandler`/`largeHandler` on a non-ignorable error. -/
def logLine (contentLength : Nat) (e : Option GoError) : String :=
  "Error writing content of length " ++ toString contentLength ++ ": " ++ errMsg e

/-- `smallHandler` from server.go.  Methods other than GET/HEAD get 405
and nothing else happens.  Otherwise the headers are set and
`chunkedBodyWriter` runs with `smallContentLength` — for HEAD as well,
since `smallHandler` has no GET-only guard before the writer call. -/
def smallHandler (h : handlers) (wErr : Nat → Option GoError)
    (method : String) : Option DownloadResult :=
  if method ≠ "GET" ∧ method ≠ "HEAD" then
    some { status := 405, headers := [], bodyWrites := [],
           served := h.BytesServed, received := h.BytesReceived, logs := [] }
  else
    match chunkedBodyWriter wErr 0 h.BytesServed smallContentLength with
    | none => none
    | some (ws, s, e) =>
      some { status := 200, headers := dlHeaders smallContentLength h.EnableCORS,
             bodyWrites := ws, served := s, received := h.BytesReceived,
             logs := if ignorableError e then [] else [logLine smallContentLength e] }

/-- `largeHandler` from server.go.  Unlike `smallHandler` it returns
right after setting headers when the method is not GET (i.e. HEAD). -/
def largeHandler (h : handlers) (wErr : Nat → Option GoError)
    (method : String) : Option DownloadResult :=
  if method ≠ "GET" ∧ method ≠ "HEAD" then
    some { status := 405, headers := [], bodyWrites := [],
           served := h.BytesServed, received := h.BytesReceived, logs := [] }
  else if method ≠ "GET" then
    some { status := 200, headers := dlHeaders largeContentLength h.EnableCORS,
           bodyWrites := [], served := h.BytesServed,
           received := h.BytesReceived, logs := [] }
  else
    match chunkedBodyWriter wErr 0 h.BytesServed largeContentLength with
    | none => none
    | some (ws, s, e) =>
      some { status := 200, headers := dlHeaders largeContentLength h.EnableCORS,
             bodyWrites := ws, served := s, received := h.BytesReceived,
             logs := if ignorableError e then [] else [logLine largeContentLength e] }

/-- How a request body stream ends: end-of-stream (`io.EOF`) or a read
error. -/
inductive ReadTerm where
  | eof : ReadTerm
  | fail : GoError → ReadTerm
  deriving DecidableEq

/-- `countingDiscard.ReadFrom` from server.go, as a function of the
`byteCounter` pointer and the body's read results: `reads` are the
sizes of the successful reads, and the stream then ends with a final
read of `lastRead` bytes together with `t` (EOF or an error).  Each
read adds its size to the counter (a nil-pointer fault — result
`none` — if the pointer is nil); `io.EOF` is converted to a nil
returned error.  Returns (total bytes, counter state, error). -/
def countingDiscardReadFrom : Option Nat → List Nat → Nat → ReadTerm →
    Option (Nat × Option Nat × Option GoError)
  | counter, [], lastRead, t =>
    match counter with
    | none => none
    | some c =>
      let s : Option Nat := some ((c + lastRead) % 2 ^ 64)
      match t with
      | ReadTerm.eof => some (lastRead, s, none)
      | ReadTerm.fail e => some (lastRead, s, some e)
  | counter, r :: rs, lastRead, t =>
    match counter with
    | none => none
    | some c =>
      (countingDiscardReadFrom (some ((c + r) % 2 ^ 64)) rs lastRead t).map
        (fun q => (r + q.1, q.2))

/-- Observable outcome of one `slurpHandler` invocation. -/
structure SlurpResult where
  status : Nat
  headers : List (String × String)
  body : String
  served : Option Nat
  received : Option Nat
  deriving DecidableEq

/-- Headers set by `slurpHandler`: Content-Type, the `setNoPublicCache`
pair, and CORS when enabled. -/
def slurpHeaders (cors : Bool) : List (String × String) :=
  [("Content-Type", "application/octet-stream"),
   ("Proxy-Cache-Control", "max-age=604800, public"),
   ("Cache-Control", "no-store, must-revalidate, private, max-age=0")] ++
  (if cors then corsHeaders else [])

/-- `slurpHandler` from server.go.  `io.Copy` to `countingDiscard`
dispatches to its `ReadFrom`; a read error yields
`http.Error(w, err.Error(), http.StatusBadRequest)` (status 400, body
the error text plus a newline), success yields status 200 with an
empty body. -/
def slurpHandler (h : handlers) (reads : List Nat) (lastRead : Nat)
    (t : ReadTerm) : Option SlurpResult :=
  match countingDiscardReadFrom h.BytesReceived reads lastRead t with
  | none => none
  | some (_, s, err) =>
    match err with
    | some e =>
      some { status := 400, headers := slurpHeaders h.EnableCORS,
             body := e.msg ++ "\n", served := h.BytesServed, received := s }
    | none =>
      some { status := 200, headers := slurpHeaders h.EnableCORS,
             body := "", served := h.BytesServed, received := s }

/-- The six URLs plus version marker of the discovery document built by
`generateConfig`.  `json.MarshalIndent` of the Go struct is a
deterministic, injective serialization of exactly these fields, so the
cached `[]byte` blob is modelled by this value. -/
structure ConfigDoc where
  version : Nat
  small_download_url : String
  large_download_url : String
  upload_url : String
  small_https_download_url : String
  large_https_download_url : String
  https_upload_url : String
  deriving DecidableEq

/-- The `Server` struct from server.go.  `onceDone` models the state of
the `sync.Once`; `generatedConfig` is `none` until `generateConfig`
stores the built document. -/
structure Server where
  PublicPort : Nat
  PublicHostPort : String
  ContextPath : String
  Scheme : String
  EnableCORS : Bool
  EnableH3AltSvc : Bool
  BytesServed : Nat
  BytesReceived : Nat
  generatedConfig : Option ConfigDoc
  onceDone : Bool
  deriving DecidableEq

/-- `generateSmallDownloadURL`: `fmt.Sprintf("%s://%s%s/small", ...)`. -/
def generateSmallDownloadURL (m : Server) : String :=
  m.Scheme ++ "://" ++ m.PublicHostPort ++ m.ContextPath ++ "/small"

/-- `generateLargeDownloadURL`: `fmt.Sprintf("%s://%s%s/large", ...)`. -/
def generateLargeDownloadURL (m : Server) : String :=
  m.Scheme ++ "://" ++ m.PublicHostPort ++ m.ContextPath ++ "/large"

/-- `generateUploadURL`: `fmt.Sprintf("%s://%s%s/slurp", ...)`. -/
def generateUploadURL (m : Server) : String :=
  m.Scheme ++ "://" ++ m.PublicHostPort ++ m.ContextPath ++ "/slurp"

/-- The document value built by `generateConfig`: version 1, the three
URLs, and the three `https_*` fields built by the very same URL
generators. -/
def generateConfigDoc (m : Server) : ConfigDoc :=
  { version := 1,
    small_download_url := generateSmallDownloadURL m,
    large_download_url := generateLargeDownloadURL m,
    upload_url := generateUploadURL m,
    small_https_download_url := generateSmallDownloadURL m,
    large_https_download_url := generateLargeDownloadURL m,
    https_upload_url := generateUploadURL m }

/-- `generateConfig` stores the built document on the server. -/
def generateConfig (m : Server) : Server :=
  { m with generatedConfig := some (generateConfigDoc m) }

/-- Observable outcome of one `ConfigHandler` request. -/
structure ConfigResponse where
  status : Nat
  headers : List (String × String)
  body : Option ConfigDoc
  deriving DecidableEq

/-- Headers set by `ConfigHandler` on the GET path. -/
def cfgHeaders (m : Server) : List (String × String) :=
  [("Content-Type", "application/json")] ++
  (if m.EnableH3AltSvc then
    [("Alt-Svc", "h3=\":" ++ toString m.PublicPort ++ "\"")] else []) ++
  (if m.EnableCORS then corsHeaders else [])

/-- `ConfigHandler` from server.go.  Non-GET methods get 405 before
anything else happens.  For GET, `m.once.Do(generateConfig)` builds
the document on the first call only (`sync.Once` linearizes concurrent
first callers; each handler invocation is one step of the linearized
order), then the cached document is written.  The `Bool` reports
whether this request ran the build. -/
def ConfigHandler (m : Server) (method : String) :
    Server × ConfigResponse × Bool :=
  if method ≠ "GET" then
    (m, { status := 405, headers := [], body := none }, false)
  else
    let mb := if m.onceDone then m
              else { generateConfig m with onceDone := true }
    (mb, { status := 200, headers := cfgHeaders mb, body := mb.generatedConfig },
     !m.onceDone)

/-- One step of a server's life, as linearized by the runtime: a
`ConfigHandler` request, or a mutation of one of the configuration
fields the discovery URLs are built from. -/
inductive ServerEvent where
  | request : String → ServerEvent
  | setScheme : String → ServerEvent
  | setPublicHostPort : String → ServerEvent
  | setContextPath : String → ServerEvent
  deriving DecidableEq

/-- Apply one event: requests go through `ConfigHandler`, mutations
rewrite the configuration field. -/
def serverStep (s : Server) : ServerEvent →
    Server × Option ConfigResponse × Bool
  | ServerEvent.request m =>
    ((ConfigHandler s m).1, some (ConfigHandler s m).2.1, (ConfigHandler s m).2.2)
  | ServerEvent.setScheme v => ({ s with Scheme := v }, none, false)
  | ServerEvent.setPublicHostPort v => ({ s with PublicHostPort := v }, none, false)
  | ServerEvent.setContextPath v => ({ s with ContextPath := v }, none, false)

/-- Run a sequence of events, collecting the responses and counting how
many requests ran the document build. -/
def runServer : Server → List ServerEvent → Server × List ConfigResponse × Nat
  | s, [] => (s, [], 0)
  | s, ev :: evs =>
    ((runServer (serverStep s ev).1 evs).1,
     (match (serverStep s ev).2.1 with
      | none => (runServer (serverStep s ev).1 evs).2.1
      | some resp => resp :: (runServer (serverStep s ev).1 evs).2.1),
     (if (serverStep s ev).2.2 then 1 else 0) +
       (runServer (serverStep s ev).1 evs).2.2)

/-- The document bodies among a list of responses. -/
def docsServed (rs : List ConfigResponse) : List ConfigDoc :=
  rs.filterMap (fun r => r.body)

/-- Whether `pat` is an initial segment of `s` (character lists). -/
def startsWithL : List Char → List Char → Bool
  | _, [] => true
  | [], _ :: _ => false
  | a :: as, b :: bs => a == b && startsWithL as bs

/-- Whether `pat` occurs as a contiguous substring of `s`. -/
def hasSubstr : List Char → List Char → Bool
  | [], pat => pat.isEmpty
  | a :: rest, pat => startsWithL (a :: rest) pat || hasSubstr rest pat

/-- With a nil counter pointer, `countingDiscard.ReadFrom` faults on
the first `atomic.AddUint64`. -/
theorem cdrf_nil_fault (reads : List Nat) (lastRead : Nat) (t : ReadTerm) :
    countingDiscardReadFrom none reads lastRead t = none := by
  cases reads <;> rfl

/-- With a non-nil counter pointer, `countingDiscard.ReadFrom` never
faults. -/
theorem cdrf_ne_none :
    ∀ (reads : List Nat) (c lastRead : Nat) (t : ReadTerm),
      countingDiscardReadFrom (some c) reads lastRead t ≠ none := by
  intro reads
  induction reads with
  | nil =>
    intro c lastRead t
    cases t <;> simp [countingDiscardReadFrom]
  | cons r rs ih =>
    intro c lastRead t
    simp only [countingDiscardReadFrom, ne_eq, Option.map_eq_none']
    exact ih ((c + r) % 2 ^ 64) lastRead t

/-! ### Claim theorems -/

/-- C1: for every requested length `N ≥ 0`, a fully successful run of
`chunkedBodyWriter` performs exactly `⌊N / chunkSize⌋` full 64 KiB
chunk writes followed by one remainder write iff `N % chunkSize ≠ 0`,
writes exactly `N` payload bytes in total, and advances the served
counter by exactly `N` (wrapping 64-bit arithmetic). -/
theorem C1_chunked_driver_split (wErr : Nat → Option GoError)
    (hw : ∀ j, wErr j = none) (N c : Nat) (hc : c < 2 ^ 64) :
    chunkedBodyWriter wErr 0 (some c) N =
      some (List.replicate (N / chunkSize) buffed ++
          (if N % chunkSize = 0 then [] else [buffed.take (N % chunkSize)]),
        some ((c + N) % 2 ^ 64), none) ∧
    ((List.replicate (N / chunkSize) buffed ++
        (if N % chunkSize = 0 then [] else [buffed.take (N % chunkSize)])).map
      List.length).sum = N := by
  constructor
  · exact cbw_success wErr hw N 0 c hc
  · rw [List.map_append, List.sum_append, List.map_replicate, buffed_length,
      List.sum_replicate, smul_eq_mul]
    by_cases h : N % chunkSize = 0
    · rw [if_pos h]
      simp only [List.map_nil, List.sum_nil, Nat.add_zero]
      exact Nat.div_mul_cancel (Nat.dvd_of_mod_eq_zero h)
    · rw [if_neg h]
      simp only [List.map_cons, List.map_nil, List.sum_cons, List.sum_nil,
        List.length_take, buffed_length, Nat.add_zero]
      have hlt : N % chunkSize < chunkSize := Nat.mod_lt _ (by decide)
      rw [Nat.min_eq_left (Nat.le_of_lt hlt)]
      have hdm := Nat.div_add_mod N chunkSize
      rw [Nat.mul_comm (N / chunkSize) chunkSize]
      omega

/-- Witness for C1 at `N = 3`, initial counter 0: one remainder write
of 3 bytes. -/
theorem C1_chunked_driver_split_witness :
    chunkedBodyWriter (fun _ => none) 0 (some 0) 3 =
      some (List.replicate (3 / chunkSize) buffed ++
          (if 3 % chunkSize = 0 then [] else [buffed.take (3 % chunkSize)]),
        some ((0 + 3) % 2 ^ 64), none) ∧
    ((List.replicate (3 / chunkSize) buffed ++
        (if 3 % chunkSize = 0 then [] else [buffed.take (3 % chunkSize)])).map
      List.length).sum = 3 :=
  C1_chunked_driver_split (fun _ => none) (fun j => rfl) 3 0 (by norm_num)

/-- C3: after any run of `chunkedBodyWriter` — including a run cut
short by a failed write — the served counter has advanced by exactly
the total payload bytes of the write calls that were performed (the
counter is incremented just before each write, and the driver stops at
the first failure), never by bytes that were requested but whose
writes were never issued. -/
theorem C3_served_equals_performed_writes (wErr : Nat → Option GoError)
    (N c : Nat) (hc : c < 2 ^ 64)
    (ws : List (List Nat)) (s : Option Nat) (e : Option GoError)
    (hrun : chunkedBodyWriter wErr 0 (some c) N = some (ws, s, e)) :
    s = some ((c + (ws.map List.length).sum) % 2 ^ 64) :=
  cbw_counter N wErr 0 c hc ws s e hrun

/-- Witness for C3: a run of length 1 whose only write fails; the
counter advanced by exactly that one attempted write. -/
theorem C3_served_equals_performed_writes_witness :
    (some 1 : Option Nat) =
      some ((0 + (([buffed.take 1] : List (List Nat)).map List.length).sum) % 2 ^ 64) :=
  C3_served_equals_performed_writes (fun _ => some ⟨false, false, "boom"⟩) 1 0
    (by norm_num) [buffed.take 1] (some 1) (some ⟨false, false, "boom"⟩)
    (by rw [chunkedBodyWriter]; norm_num [chunkSize])

/-- C7: `ignorableError` returns true exactly for: no error, a
broken-pipe error, a connection-reset error, and the http2
"client disconnected" error; every other non-nil error is must-report. -/
theorem C7_ignorable_exactly (e : Option GoError) :
    ignorableError e = true ↔
      e = none ∨ ∃ g, e = some g ∧
        (g.isEPIPE = true ∨ g.isECONNRESET = true ∨ g.msg = "client disconnected") := by
  cases e with
  | none => simp [ignorableError]
  | some g =>
    simp [ignorableError]
    tauto

/-- C9: every URL in the discovery document is
`scheme ++ "://" ++ hostPort ++ contextPath ++ suffix`, each `https_*`
field equals its plain counterpart, and the concrete scenario
(`https`, `nq.example.com:4043`, empty prefix) yields
`https://nq.example.com:4043/small`. -/
theorem C9_discovery_urls (m : Server) :
    (generateConfigDoc m).small_download_url =
        m.Scheme ++ "://" ++ m.PublicHostPort ++ m.ContextPath ++ "/small" ∧
    (generateConfigDoc m).large_download_url =
        m.Scheme ++ "://" ++ m.PublicHostPort ++ m.ContextPath ++ "/large" ∧
    (generateConfigDoc m).upload_url =
        m.Scheme ++ "://" ++ m.PublicHostPort ++ m.ContextPath ++ "/slurp" ∧
    (generateConfigDoc m).small_https_download_url = (generateConfigDoc m).small_download_url ∧
    (generateConfigDoc m).large_https_download_url = (generateConfigDoc m).large_download_url ∧
    (generateConfigDoc m).https_upload_url = (generateConfigDoc m).upload_url ∧
    (generateConfigDoc
      { PublicPort := 4043, PublicHostPort := "nq.example.com:4043",
        ContextPath := "", Scheme := "https", EnableCORS := false,
        EnableH3AltSvc := false, BytesServed := 0, BytesReceived := 0,
        generatedConfig := none, onceDone := false }).small_download_url =
      "https://nq.example.com:4043/small" := by
  refine ⟨rfl, rfl, rfl, rfl, rfl, rfl, ?_⟩
  rfl

/-- C10: `BulkHandlers` constructs handlers whose counter pointers are
both nil, `CountingBulkHandlers` passes the caller's pointers through,
and the chunked writer (for any positive length) and the discard sink
dereference their counter pointer unconditionally: with a nil pointer
they fault, with a non-nil pointer they never fault. -/
theorem C10_nil_counter_precondition (pfx : String) (cors : Bool)
    (a b : Option Nat) (wErr : Nat → Option GoError) (N : Nat) (hN : 0 < N)
    (c : Nat) (reads : List Nat) (lastRead : Nat) (t : ReadTerm) :
    (BulkHandlers pfx cors).1.BytesServed = none ∧
    (BulkHandlers pfx cors).1.BytesReceived = none ∧
    (CountingBulkHandlers pfx cors a b).1.BytesServed = a ∧
    (CountingBulkHandlers pfx cors a b).1.BytesReceived = b ∧
    chunkedBodyWriter wErr 0 none N = none ∧
    chunkedBodyWriter wErr 0 (some c) N ≠ none ∧
    countingDiscardReadFrom none reads lastRead t = none ∧
    countingDiscardReadFrom (some c) reads lastRead t ≠ none :=
  ⟨rfl, rfl, rfl, rfl, cbw_nil_fault wErr 0 N hN, cbw_ne_none N wErr 0 c,
   cdrf_nil_fault reads lastRead t, cdrf_ne_none reads c lastRead t⟩

/-- Witness for C10 at length 1, empty upload body. -/
theorem C10_nil_counter_precondition_witness :
    (BulkHandlers "" false).1.BytesServed = none ∧
    (BulkHandlers "" false).1.BytesReceived = none ∧
    (CountingBulkHandlers "" false (some 0) (some 0)).1.BytesServed = some 0 ∧
    (CountingBulkHandlers "" false (some 0) (some 0)).1.BytesReceived = some 0 ∧
    chunkedBodyWriter (fun _ => none) 0 none 1 = none ∧
    chunkedBodyWriter (fun _ => none) 0 (some 0) 1 ≠ none ∧
    countingDiscardReadFrom none [] 0 ReadTerm.eof = none ∧
    countingDiscardReadFrom (some 0) [] 0 ReadTerm.eof ≠ none :=
  C10_nil_counter_precondition "" false (some 0) (some 0) (fun _ => none) 1
    (by norm_num) 0 [] 0 ReadTerm.eof

/-- C6: any method other than GET/HEAD on a download endpoint, and any
method other than GET on the discovery endpoint, yields status 405
with no body, no log line, and no change to either byte counter (the
server state, counters included, is returned untouched). -/
theorem C6_method_not_allowed (h : handlers) (wErr : Nat → Option GoError)
    (m m2 : String) (s : Server)
    (hm1 : m ≠ "GET") (hm2 : m ≠ "HEAD") (hm3 : m2 ≠ "GET") :
    smallHandler h wErr m =
      some { status := 405, headers := [], bodyWrites := [],
             served := h.BytesServed, received := h.BytesReceived, logs := [] } ∧
    largeHandler h wErr m =
      some { status := 405, headers := [], bodyWrites := [],
             served := h.BytesServed, received := h.BytesReceived, logs := [] } ∧
    ConfigHandler s m2 =
      (s, { status := 405, headers := [], body := none }, false) := by
  refine ⟨?_, ?_, ?_⟩
  · rw [smallHandler, if_pos ⟨hm1, hm2⟩]
  · rw [largeHandler, if_pos ⟨hm1, hm2⟩]
  · rw [ConfigHandler, if_pos hm3]

/-- Witness for C6: DELETE on the download endpoints, POST on the
discovery endpoint. -/
theorem C6_method_not_allowed_witness :
    smallHandler ⟨false, some 0, some 0⟩ (fun _ => none) "DELETE" =
      some { status := 405, headers := [], bodyWrites := [],
             served := some 0, received := some 0, logs := [] } ∧
    largeHandler ⟨false, some 0, some 0⟩ (fun _ => none) "DELETE" =
      some { status := 405, headers := [], bodyWrites := [],
             served := some 0, received := some 0, logs := [] } ∧
    ConfigHandler
      { PublicPort := 4043, PublicHostPort := "nq.example.com:4043",
        ContextPath := "", Scheme := "https", EnableCORS := false,
        EnableH3AltSvc := false, BytesServed := 0, BytesReceived := 0,
        generatedConfig := none, onceDone := false } "POST" =
      ({ PublicPort := 4043, PublicHostPort := "nq.example.com:4043",
         ContextPath := "", Scheme := "https", EnableCORS := false,
         EnableH3AltSvc := false, BytesServed := 0, BytesReceived := 0,
         generatedConfig := none, onceDone := false },
       { status := 405, headers := [], body := none }, false) :=
  C6_method_not_allowed ⟨false, some 0, some 0⟩ (fun _ => none) "DELETE" "POST" _
    (by decide) (by decide) (by decide)

/-- C2 counterexample: a HEAD request to the small endpoint does NOT
leave the body unwritten and the served counter unchanged —
`smallHandler` has no GET-only guard, so it runs the chunked writer,
performing a 1-byte body write and advancing the counter. -/
theorem C2_head_small_counterexample :
    ¬ ((smallHandler ⟨false, some 0, some 0⟩ (fun _ => none) "HEAD").map
        (fun r => (r.bodyWrites, r.served)) = some ([], some 0)) := by
  rw [smallHandler, if_neg (by simp)]
  rw [show (⟨false, some 0, some 0⟩ : handlers).BytesServed = some 0 from rfl]
  rw [cbw_step_rem (fun _ => none) 0 0 smallContentLength (by decide) (by decide)]
  simp

/-- C2 (amended): a HEAD request to the large endpoint sets the same
headers as GET (Content-Length = the fixed large size, octet-stream,
CORS when enabled), writes no body bytes, leaves the served counter
unchanged, and responds 200.  A HEAD request to the small endpoint,
however, is handled exactly like GET: it performs the 1-byte body
write and advances the served counter by 1. -/
theorem C2_head_download_amended (h : handlers) (wErr : Nat → Option GoError)
    (c : Nat) (hserved : h.BytesServed = some c) (hw : ∀ j, wErr j = none) :
    largeHandler h wErr "HEAD" =
      some { status := 200, headers := dlHeaders largeContentLength h.EnableCORS,
             bodyWrites := [], served := h.BytesServed,
             received := h.BytesReceived, logs := [] } ∧
    smallHandler h wErr "HEAD" = smallHandler h wErr "GET" ∧
    smallHandler h wErr "HEAD" =
      some { status := 200, headers := dlHeaders smallContentLength h.EnableCORS,
             bodyWrites := [buffed.take 1], served := some ((c + 1) % 2 ^ 64),
             received := h.BytesReceived, logs := [] } := by
  refine ⟨?_, ?_, ?_⟩
  · rw [largeHandler, if_neg (by simp), if_pos (by decide)]
  · rw [smallHandler, smallHandler, if_neg (by simp), if_neg (by simp)]
  · rw [smallHandler, if_neg (by simp), hserved]
    rw [cbw_step_rem wErr 0 c smallContentLength (by decide) (by decide), hw 0]
    rfl

/-- Witness for C2 (amended) with CORS off and counters at 0. -/
theorem C2_head_download_amended_witness :
    largeHandler ⟨false, some 0, some 0⟩ (fun _ => none) "HEAD" =
      some { status := 200, headers := dlHeaders largeContentLength false,
             bodyWrites := [], served := some 0, received := some 0, logs := [] } ∧
    smallHandler ⟨false, some 0, some 0⟩ (fun _ => none) "HEAD" =
      smallHandler ⟨false, some 0, some 0⟩ (fun _ => none) "GET" ∧
    smallHandler ⟨false, some 0, some 0⟩ (fun _ => none) "HEAD" =
      some { status := 200, headers := dlHeaders smallContentLength false,
             bodyWrites := [buffed.take 1], served := some ((0 + 1) % 2 ^ 64),
             received := some 0, logs := [] } :=
  C2_head_download_amended ⟨false, some 0, some 0⟩ (fun _ => none) 0 rfl
    (fun _ => rfl)

/-- A body stream ending in EOF: the discard sink counts every byte of
every read and converts the EOF into a nil error. -/
theorem cdrf_eof :
    ∀ (reads : List Nat) (c lastRead : Nat),
      countingDiscardReadFrom (some c) reads lastRead ReadTerm.eof =
        some (reads.sum + lastRead,
          some ((c + (reads.sum + lastRead)) % 2 ^ 64), none) := by
  intro reads
  induction reads with
  | nil =>
    intro c lastRead
    simp [countingDiscardReadFrom]
  | cons r rs ih =>
    intro c lastRead
    rw [countingDiscardReadFrom]
    rw [ih ((c + r) % 2 ^ 64) lastRead]
    rw [Option.map_some']
    simp only [List.sum_cons]
    rw [Nat.mod_add_mod]
    have h1 : r + (rs.sum + lastRead) = r + rs.sum + lastRead := by omega
    have h2 : c + r + (rs.sum + lastRead) = c + (r + rs.sum + lastRead) := by omega
    rw [h1, h2]

/-- C4: a successful upload of `K` bytes — delivered in any
decomposition of reads ending in EOF — advances the received counter
by exactly `K` and yields status 200 with an empty body. -/
theorem C4_upload_counts_exactly (h : handlers) (reads : List Nat)
    (lastRead c K : Nat) (hrecv : h.BytesReceived = some c)
    (hK : K = reads.sum + lastRead) :
    slurpHandler h reads lastRead ReadTerm.eof =
      some { status := 200, headers := slurpHeaders h.EnableCORS, body := "",
             served := h.BytesServed, received := some ((c + K) % 2 ^ 64) } := by
  rw [slurpHandler, hrecv, cdrf_eof reads c lastRead, hK]

/-- Witness for C4: a 6-byte upload delivered as reads of 2, 3 and a
final 1 byte with EOF. -/
theorem C4_upload_counts_exactly_witness :
    slurpHandler ⟨false, some 0, some 0⟩ [2, 3] 1 ReadTerm.eof =
      some { status := 200, headers := slurpHeaders false, body := "",
             served := some 0, received := some ((0 + 6) % 2 ^ 64) } :=
  C4_upload_counts_exactly ⟨false, some 0, some 0⟩ [2, 3] 1 0 6 rfl (by decide)

/-! ### Substring helpers for the log-line claims -/

theorem startsWithL_self_append :
    ∀ (pat rest : List Char), startsWithL (pat ++ rest) pat = true := by
  intro pat
  induction pat with
  | nil =>
    intro rest
    cases rest <;> rfl
  | cons a pt ih =>
    intro rest
    simp [startsWithL, ih rest]

theorem hasSubstr_append_left :
    ∀ (xs ys pat : List Char), hasSubstr ys pat = true →
      hasSubstr (xs ++ ys) pat = true := by
  intro xs
  induction xs with
  | nil => intro ys pat hp; simpa using hp
  | cons a xt ih =>
    intro ys pat hp
    rw [List.cons_append, hasSubstr]
    rw [ih ys pat hp]
    simp

theorem hasSubstr_self_append (pat rest : List Char) :
    hasSubstr (pat ++ rest) pat = true := by
  cases hpr : pat ++ rest with
  | nil =>
    obtain ⟨h1, h2⟩ := List.append_eq_nil.mp hpr
    subst h1
    rfl
  | cons a t =>
    rw [hasSubstr, ← hpr, startsWithL_self_append]
    simp

/-- The handlers' error log line always contains the decimal target
size it was built with. -/
theorem logLine_mentions_size (len : Nat) (e : Option GoError) :
    hasSubstr (logLine len e).toList (toString len).toList = true := by
  rw [logLine]
  have h : ("Error writing content of length " ++ toString len ++ ": " ++ errMsg e).toList
      = "Error writing content of length ".toList ++
        ((toString len).toList ++ (": ".toList ++ (errMsg e).toList)) := by
    simp [List.append_assoc]
  rw [h]
  exact hasSubstr_append_left _ _ _
    (hasSubstr_self_append (toString len).toList (": ".toList ++ (errMsg e).toList))

/-- A concrete non-ignorable write error used in witnesses. -/
def boomErr : GoError := ⟨false, false, "boom"⟩

/-- C8 counterexample: the single log entry produced for a
non-ignorable write failure on the small endpoint is
`"Error writing content of length 1: boom"` — it does not contain the
endpoint name (`small`) anywhere, contradicting the claim that the
entry references both the endpoint name and the target size. -/
theorem C8_endpoint_name_counterexample :
    (smallHandler ⟨false, some 0, some 0⟩ (fun _ => some boomErr) "GET").map
        DownloadResult.logs =
      some ["Error writing content of length 1: boom"] ∧
    hasSubstr "Error writing content of length 1: boom".toList
      "small".toList = false := by
  constructor
  · rw [smallHandler, if_neg (by simp)]
    rw [show (⟨false, some 0, some 0⟩ : handlers).BytesServed = some 0 from rfl]
    rw [cbw_step_rem _ 0 0 smallContentLength (by decide) (by decide)]
    rfl
  · decide

/-- C8 (amended): an ignorable write failure produces no error log
entry; any other write failure produces exactly one entry, and that
entry references the target size (but not the endpoint name, which
appears only in the metrics labels). -/
theorem C8_error_logging_amended (h : handlers) (wErr : Nat → Option GoError)
    (c : Nat) (hserved : h.BytesServed = some c)
    (wsS : List (List Nat)) (sS : Option Nat) (eS : Option GoError)
    (hrunS : chunkedBodyWriter wErr 0 (some c) smallContentLength = some (wsS, sS, eS))
    (wsL : List (List Nat)) (sL : Option Nat) (eL : Option GoError)
    (hrunL : chunkedBodyWriter wErr 0 (some c) largeContentLength = some (wsL, sL, eL)) :
    (smallHandler h wErr "GET").map DownloadResult.logs =
      some (if ignorableError eS then [] else [logLine smallContentLength eS]) ∧
    (largeHandler h wErr "GET").map DownloadResult.logs =
      some (if ignorableError eL then [] else [logLine largeContentLength eL]) ∧
    hasSubstr (logLine smallContentLength eS).toList
      (toString smallContentLength).toList = true ∧
    hasSubstr (logLine largeContentLength eL).toList
      (toString largeContentLength).toList = true := by
  refine ⟨?_, ?_, logLine_mentions_size _ _, logLine_mentions_size _ _⟩
  · rw [smallHandler, if_neg (by simp), hserved, hrunS]
    rfl
  · rw [largeHandler, if_neg (by simp), if_neg (by simp), hserved, hrunL]
    rfl

/-- Witness for C8 (amended): the first write fails with a
non-ignorable error on both endpoints. -/
theorem C8_error_logging_amended_witness :
    (smallHandler ⟨false, some 0, some 0⟩ (fun _ => some boomErr) "GET").map
        DownloadResult.logs =
      some (if ignorableError (some boomErr) then []
            else [logLine smallContentLength (some boomErr)]) ∧
    (largeHandler ⟨false, some 0, some 0⟩ (fun _ => some boomErr) "GET").map
        DownloadResult.logs =
      some (if ignorableError (some boomErr) then []
            else [logLine largeContentLength (some boomErr)]) ∧
    hasSubstr (logLine smallContentLength (some boomErr)).toList
      (toString smallContentLength).toList = true ∧
    hasSubstr (logLine largeContentLength (some boomErr)).toList
      (toString largeContentLength).toList = true :=
  C8_error_logging_amended ⟨false, some 0, some 0⟩ (fun _ => some boomErr) 0 rfl
    [buffed.take 1] (some 1) (some boomErr)
    (by rw [cbw_step_rem _ 0 0 smallContentLength (by decide) (by decide)]; rfl)
    [buffed] (some ((0 + chunkSize) % 2 ^ 64)) (some boomErr)
    (cbw_step_chunk_err _ 0 0 largeContentLength (by decide) (by decide) boomErr rfl)

/-! ### Discovery-document build-once machinery (C5) -/

theorem ConfigHandler_405 (s : Server) (m : String) (hm : m ≠ "GET") :
    ConfigHandler s m =
      (s, { status := 405, headers := [], body := none }, false) := by
  rw [ConfigHandler, if_pos hm]

theorem ConfigHandler_done (s : Server) (hd : s.onceDone = true) :
    ConfigHandler s "GET" =
      (s, { status := 200, headers := cfgHeaders s, body := s.generatedConfig },
       false) := by
  rw [ConfigHandler, if_neg (by simp)]
  simp [hd]

theorem ConfigHandler_first (s : Server) (hd : s.onceDone = false) :
    ConfigHandler s "GET" =
      ({ generateConfig s with onceDone := true },
       { status := 200,
         headers := cfgHeaders { generateConfig s with onceDone := true },
         body := some (generateConfigDoc s) },
       true) := by
  rw [ConfigHandler, if_neg (by simp)]
  simp [hd]
  rfl

/-- Once the document is built, any further event sequence performs no
further builds, never changes the cached document, and serves exactly
that document on every GET. -/
theorem runServer_built :
    ∀ (evts : List ServerEvent) (s : Server), s.onceDone = true →
      (runServer s evts).1.onceDone = true ∧
      (runServer s evts).1.generatedConfig = s.generatedConfig ∧
      (runServer s evts).2.2 = 0 ∧
      ∀ d ∈ docsServed (runServer s evts).2.1, some d = s.generatedConfig := by
  intro evts
  induction evts with
  | nil =>
    intro s hd
    refine ⟨hd, rfl, rfl, ?_⟩
    intro d hdmem
    simp [runServer, docsServed] at hdmem
  | cons ev evs ih =>
    intro s hd
    cases ev with
    | request m =>
      by_cases hm : m = "GET"
      · subst hm
        rw [runServer]
        simp only [serverStep, ConfigHandler_done s hd]
        obtain ⟨i1, i2, i3, i4⟩ := ih s hd
        refine ⟨i1, i2, by simp [i3], ?_⟩
        intro d hdmem
        simp only [docsServed, List.filterMap_cons] at hdmem
        cases hg : s.generatedConfig with
        | none =>
          rw [hg] at hdmem
          simp only at hdmem
          exact (i4 d hdmem).trans hg
        | some doc =>
          rw [hg] at hdmem
          simp only at hdmem
          rcases List.mem_cons.mp hdmem with h1 | h2
          · rw [h1]
          · exact (i4 d h2).trans hg
      · rw [runServer]
        simp only [serverStep, ConfigHandler_405 s m hm]
        obtain ⟨i1, i2, i3, i4⟩ := ih s hd
        refine ⟨i1, i2, by simp [i3], ?_⟩
        intro d hdmem
        simp only [docsServed, List.filterMap_cons] at hdmem
        exact i4 d hdmem
    | setScheme v =>
      rw [runServer]
      simp only [serverStep]
      simpa using ih { s with Scheme := v } hd
    | setPublicHostPort v =>
      rw [runServer]
      simp only [serverStep]
      simpa using ih { s with PublicHostPort := v } hd
    | setContextPath v =>
      rw [runServer]
      simp only [serverStep]
      simpa using ih { s with ContextPath := v } hd

/-- C5: starting from a server whose discovery document has not yet
been built, any linearized sequence of requests and configuration
mutations performs at most one document build, and every document
served — across all requests, even with configuration mutations
interleaved after the first build — is the same document. -/
theorem C5_discovery_built_once :
    ∀ (evts : List ServerEvent) (s : Server), s.onceDone = false →
      (runServer s evts).2.2 ≤ 1 ∧
      ∀ d₁ ∈ docsServed (runServer s evts).2.1,
        ∀ d₂ ∈ docsServed (runServer s evts).2.1, d₁ = d₂ := by
  intro evts
  induction evts with
  | nil =>
    intro s h0
    refine ⟨by simp [runServer], ?_⟩
    intro d₁ h1 d₂ h2
    simp [runServer, docsServed] at h1
  | cons ev evs ih =>
    intro s h0
    cases ev with
    | request m =>
      by_cases hm : m = "GET"
      · subst hm
        rw [runServer]
        simp only [serverStep, ConfigHandler_first s h0]
        obtain ⟨j1, j2, j3, j4⟩ :=
          runServer_built evs { generateConfig s with onceDone := true } rfl
        refine ⟨by simp [j3], ?_⟩
        have hall : ∀ d,
            d ∈ docsServed (runServer { generateConfig s with onceDone := true } evs).2.1 →
              d = generateConfigDoc s := by
          intro d hd
          exact Option.some.inj ((j4 d hd).trans rfl)
        intro d₁ h1 d₂ h2
        simp only [docsServed, List.filterMap_cons] at h1 h2
        rcases List.mem_cons.mp h1 with e1 | e1
        · rcases List.mem_cons.mp h2 with e2 | e2
          · rw [e1, e2]
          · rw [e1, hall d₂ e2]
        · rcases List.mem_cons.mp h2 with e2 | e2
          · rw [hall d₁ e1, e2]
          · rw [hall d₁ e1, hall d₂ e2]
      · rw [runServer]
        simp only [serverStep, ConfigHandler_405 s m hm]
        obtain ⟨k1, k2⟩ := ih s h0
        refine ⟨by simpa using k1, ?_⟩
        intro d₁ h1 d₂ h2
        simp only [docsServed, List.filterMap_cons] at h1 h2
        exact k2 d₁ h1 d₂ h2
    | setScheme v =>
      rw [runServer]
      simp only [serverStep]
      simpa using ih { s with Scheme := v } h0
    | setPublicHostPort v =>
      rw [runServer]
      simp only [serverStep]
      simpa using ih { s with PublicHostPort := v } h0
    | setContextPath v =>
      rw [runServer]
      simp only [serverStep]
      simpa using ih { s with ContextPath := v } h0

/-- Witness for C5: two GET requests with a scheme mutation in
between, starting from an unbuilt server; the run performs at most one
build, and the document of the first response (which is in the served
list) equals itself under the all-equal property. -/
theorem C5_discovery_built_once_witness :
    (runServer
      { PublicPort := 4043, PublicHostPort := "nq.example.com:4043",
        ContextPath := "", Scheme := "https", EnableCORS := false,
        EnableH3AltSvc := false, BytesServed := 0, BytesReceived := 0,
        generatedConfig := none, onceDone := false }
      [ServerEvent.request "GET", ServerEvent.setScheme "http",
       ServerEvent.request "GET"]).2.2 ≤ 1 ∧
    generateConfigDoc
      { PublicPort := 4043, PublicHostPort := "nq.example.com:4043",
        ContextPath := "", Scheme := "https", EnableCORS := false,
        EnableH3AltSvc := false, BytesServed := 0, BytesReceived := 0,
        generatedConfig := none, onceDone := false } =
    generateConfigDoc
      { PublicPort := 4043, PublicHostPort := "nq.example.com:4043",
        ContextPath := "", Scheme := "https", EnableCORS := false,
        EnableH3AltSvc := false, BytesServed := 0, BytesReceived := 0,
        generatedConfig := none, onceDone := false } :=
  ⟨(C5_discovery_built_once
      [ServerEvent.request "GET", ServerEvent.setScheme "http",
       ServerEvent.request "GET"]
      { PublicPort := 4043, PublicHostPort := "nq.example.com:4043",
        ContextPath := "", Scheme := "https", EnableCORS := false,
        EnableH3AltSvc := false, BytesServed := 0, BytesReceived := 0,
        generatedConfig := none, onceDone := false } rfl).1,
   (C5_discovery_built_once
      [ServerEvent.request "GET", ServerEvent.setScheme "http",
       ServerEvent.request "GET"]
      { PublicPort := 4043, PublicHostPort := "nq.example.com:4043",
        ContextPath := "", Scheme := "https", EnableCORS := false,
        EnableH3AltSvc := false, BytesServed := 0, BytesReceived := 0,
        generatedConfig := none, onceDone := false } rfl).2 _ (by decide) _ (by decide)⟩

end Goserver
